import Mathlib

/-!
Verification development for the SGG Bulletin Officiel API
(`src/app/main.py`, FastAPI application).

The Python handlers are shallowly embedded as pure Lean functions.
JSON values are modelled by the inductive `JVal`; Python runtime
exceptions that can escape a handler are modelled by `PyErr`; the
HTTP-level outcome of a request is `Outcome`.  The on-disk cache file
`data/bulletins.json` is modelled by `FileState`.
-/

set_option autoImplicit false

/-- JSON values, as produced by `json.load` / consumed by FastAPI's
JSON serialisation. -/
inductive JVal where
  | jnull
  | jbool (b : Bool)
  | jnum (n : Int)
  | jstr (s : String)
  | jarr (xs : List JVal)
  | jobj (fields : List (String × JVal))

/-- Python runtime exceptions that can arise in the embedded handlers. -/
inductive PyErr where
  | attributeError   -- e.g. `.get` on a non-dict, `.startswith` on a non-str
  | typeError        -- e.g. iterating a non-iterable
  | netError         -- httpx network error / timeout (request raised)
  | httpExc (status : Nat)  -- fastapi.HTTPException raised inside a `try`
  | nameError        -- reference to an unbound local (see api_bo_text_ar_internal)
deriving Repr, DecidableEq

/-- The HTTP-level outcome of one request, as FastAPI surfaces it:
a 200 response with a JSON body, an `HTTPException` with a status code,
an uncaught Python exception (which FastAPI turns into a 500 response),
or the static inlined HTML page (a compile-time constant string in the
source, served by `root`/`index_page`; its content is static data). -/
inductive Outcome where
  | ok (body : JVal)
  | httpError (status : Nat)
  | raised (e : PyErr)
  | staticPage

/-- Python truthiness (`if not x:`) of a JSON value. -/
def pyFalsy : JVal → Bool
  | .jnull => true
  | .jbool b => !b
  | .jnum n => n == 0
  | .jstr s => s.isEmpty
  | .jarr l => l.isEmpty
  | .jobj l => l.isEmpty

/-- Python `x.get(k, dflt)`: succeeds on a dict, raises `AttributeError`
on any other JSON value. -/
def pyGetJ (v : JVal) (k : String) (dflt : JVal) : Except PyErr JVal :=
  match v with
  | .jobj fields => .ok ((List.lookup k fields).getD dflt)
  | _ => .error .attributeError

/-- Python `s.startswith(pre)` (true iff `pre` is a prefix of `s`). -/
def pyStartsWith (s pre : String) : Bool :=
  pre.toList.isPrefixOf s.toList

/-- Python `v.startswith(pre)` on a JSON value: raises `AttributeError`
unless `v` is a string. -/
def pyStartsWithJ (v : JVal) (pre : String) : Except PyErr Bool :=
  match v with
  | .jstr s => .ok (pyStartsWith s pre)
  | _ => .error .attributeError

/-- Python `for b in v`: lists yield their elements, strings their
characters, dicts their keys; other values raise `TypeError`. -/
def pyIter : JVal → Except PyErr (List JVal)
  | .jarr l => .ok l
  | .jstr s => .ok (s.toList.map fun c => .jstr c.toString)
  | .jobj fields => .ok (fields.map fun p => .jstr p.1)
  | _ => .error .typeError

/-! ## The local cache file and `load_bulletins_from_file` -/

/-- State of the on-disk cache file `data/bulletins.json`:
missing (open raises `FileNotFoundError`), present but not valid JSON
(`json.load` raises `JSONDecodeError`), or present with parsed JSON
content `doc`. -/
inductive FileState where
  | missing
  | corrupt
  | stored (doc : JVal)

/-- The default document returned when the file is missing or corrupt:
`{"bulletins": {"FR": [], "AR": []}}`. -/
def defaultDoc : JVal :=
  .jobj [("bulletins", .jobj [("FR", .jarr []), ("AR", .jarr [])])]

/-- Embedding of `load_bulletins_from_file` (src/app/main.py lines 42-50): opens the
file read-only and parses it; `FileNotFoundError` and `JSONDecodeError`
are both caught and mapped to the default empty structure. -/
def load_bulletins_from_file : FileState → JVal
  | .missing => defaultDoc
  | .corrupt => defaultDoc
  | .stored doc => doc

/-! ## `filter_by_year` -/

/-- The list comprehension
`[b for b in bulletins if b.get("BoDate", "").startswith(pre)]`:
elements are visited left to right; the first element on which
`.get` or `.startswith` raises aborts the whole comprehension. -/
def filterByYearCore (bulletins : List JVal) (pre : String) :
    Except PyErr (List JVal) :=
  match bulletins with
  | [] => .ok []
  | b :: rest =>
    match (pyGetJ b "BoDate" (.jstr "")).bind (fun v => pyStartsWithJ v pre) with
    | .error e => .error e
    | .ok true => (filterByYearCore rest pre).map (fun l => b :: l)
    | .ok false => filterByYearCore rest pre

/-- Embedding of `filter_by_year` (src/app/main.py lines 53-59).  `currentYear` is
the value of `datetime.datetime.utcnow().year` at call time. -/
def filter_by_year (bulletins : List JVal) (year : String)
    (currentYear : Nat) : Except PyErr (List JVal) :=
  if year = "current" then
    filterByYearCore bulletins (toString currentYear)
  else
    filterByYearCore bulletins year

/-- The prefix actually compared by `filter_by_year`. -/
def yearPat (year : String) (currentYear : Nat) : String :=
  if year = "current" then toString currentYear else year

/-- A record on which the year filter cannot raise: a JSON object whose
`BoDate` field, when present, is a string. -/
def goodRecord : JVal → Bool
  | .jobj fields =>
    match List.lookup "BoDate" fields with
    | some (.jstr _) => true
    | some _ => false
    | none => true
  | _ => false

/-- The (total) predicate the year filter computes on a record that does
not make it raise, mirroring `b.get("BoDate", "").startswith(pre)`. -/
def keepB (pre : String) : JVal → Bool
  | .jobj fields =>
    match List.lookup "BoDate" fields with
    | some (.jstr s) => pyStartsWith s pre
    | some _ => false
    | none => pyStartsWith "" pre
  | _ => false

/-! ## Public endpoints -/

/-- Handler of `GET /api/database` (`get_database`, lines 945-949): returns the
loaded document unchanged, no filtering, no authentication. -/
def get_database (fs : FileState) : Outcome :=
  .ok (load_bulletins_from_file fs)

/-- Common body of `api_bo_local_fr` / `api_bo_local_ar`
(lines 951-983), parameterised by the language key:
`data.get("bulletins", {}).get(langKey, [])`; 404 when that value is
falsy; with a `year` query parameter, 404 when the filtered list is
empty, else the filtered list; without one, the stored value as-is. -/
def api_bo_local_lang (langKey : String) (fs : FileState)
    (year : Option String) (currentYear : Nat) : Outcome :=
  let data := load_bulletins_from_file fs
  match pyGetJ data "bulletins" (.jobj []) with
  | .error e => .raised e
  | .ok bmap =>
    match pyGetJ bmap langKey (.jarr []) with
    | .error e => .raised e
    | .ok bs =>
      if pyFalsy bs then .httpError 404
      else
        match year with
        | none => .ok bs
        | some y =>
          match pyIter bs with
          | .error e => .raised e
          | .ok items =>
            match filter_by_year items y currentYear with
            | .error e => .raised e
            | .ok filtered =>
              if filtered.isEmpty then .httpError 404
              else .ok (.jarr filtered)

/-- Handler of `GET /api/BO/local/FR` (lines 951-966). -/
def api_bo_local_fr (fs : FileState) (year : Option String)
    (currentYear : Nat) : Outcome :=
  api_bo_local_lang "FR" fs year currentYear

/-- Handler of `GET /api/BO/local/AR` (lines 968-983). -/
def api_bo_local_ar (fs : FileState) (year : Option String)
    (currentYear : Nat) : Outcome :=
  api_bo_local_lang "AR" fs year currentYear

/-- The value `data.get("bulletins", {}).get(langKey, [])` computed by
the local endpoints, as a single fallible access. -/
def extractLangVal (fs : FileState) (langKey : String) : Except PyErr JVal :=
  (pyGetJ (load_bulletins_from_file fs) "bulletins" (.jobj [])).bind
    (fun bmap => pyGetJ bmap langKey (.jarr []))

/-! ## Authentication -/

/-- Embedding of `verify_api_key` (lines 26-30): false when no bearer credentials
were presented, otherwise string equality of the presented token with
the configured key (`API_KEY = os.getenv("INTERNAL_API_KEY", ...)`,
modelled as the parameter `key`). -/
def verify_api_key (creds : Option String) (key : String) : Bool :=
  match creds with
  | none => false
  | some c => c == key

/-- Embedding of `require_api_key` (lines 32-39): raises `HTTPException(401)` when
verification fails; this runs as a FastAPI dependency, before the
endpoint body. -/
def require_api_key (creds : Option String) (key : String) :
    Except Nat Unit :=
  if verify_api_key creds key then .ok () else .error 401

/-! ## Internal proxy endpoints -/

/-- The result of one outbound `httpx` call: the request itself raised
(network error / timeout), or a response arrived with a status code, a
JSON body (`response.json()`, which raises on a non-JSON body) and a
text length (`len(response.text)`). -/
inductive Upstream where
  | failure (msg : String)
  | response (status : Nat) (jsonBody : Except PyErr JVal) (textLen : Nat)

/-- The `try` body shared by the proxy endpoints (e.g. lines 989-995):
return `response.json()` on status 200, otherwise raise
`HTTPException(response.status_code, ...)` — which, being raised inside
the `try`, is itself an `Exception`. -/
def relayUpstream (up : Upstream) : Except PyErr JVal :=
  match up with
  | .failure _ => .error .netError
  | .response st jsonBody _ => if st = 200 then jsonBody else .error (.httpExc st)

/-- The `try` body of `api_bo_text_ar_internal` (lines 1054-1060): its
non-200 branch evaluates `str(e)` with `e` unbound, raising `NameError`
before any `HTTPException` is constructed. -/
def relayUpstreamTextAr (up : Upstream) : Except PyErr JVal :=
  match up with
  | .failure _ => .error .netError
  | .response st jsonBody _ => if st = 200 then jsonBody else .error .nameError

/-- The handler shape of every proxy endpoint: the `require_api_key`
dependency first (401 on failure), then the `try` body; any exception
escaping the body — including the `HTTPException` carrying the upstream
status — is caught by `except Exception` and re-raised as
`HTTPException(500, "Internal server error: ...")`. -/
def guardedRelay (creds : Option String) (key : String)
    (body : Except PyErr JVal) : Outcome :=
  match require_api_key creds key with
  | .error st => .httpError st
  | .ok _ =>
    match body with
    | .ok b => .ok b
    | .error _ => .httpError 500

/-- Handler of `GET /api/BO/FR/internal` (lines 986-997). -/
def api_bo_fr_internal (creds : Option String) (key : String)
    (up : Upstream) : Outcome :=
  guardedRelay creds key (relayUpstream up)

/-- Handler of `GET /api/BO/ALL/FR/internal` (lines 999-1010). -/
def api_bo_all_fr_internal (creds : Option String) (key : String)
    (up : Upstream) : Outcome :=
  guardedRelay creds key (relayUpstream up)

/-- Handler of `GET /api/BO/AR/internal` (lines 1012-1023). -/
def api_bo_ar_internal (creds : Option String) (key : String)
    (up : Upstream) : Outcome :=
  guardedRelay creds key (relayUpstream up)

/-- Handler of `GET /api/BO/ALL/AR/internal` (lines 1025-1036). -/
def api_bo_all_ar_internal (creds : Option String) (key : String)
    (up : Upstream) : Outcome :=
  guardedRelay creds key (relayUpstream up)

/-- Handler of `GET /api/BO/Text/FR/internal` (lines 1038-1049). -/
def api_bo_text_fr_internal (creds : Option String) (key : String)
    (up : Upstream) : Outcome :=
  guardedRelay creds key (relayUpstream up)

/-- Handler of `GET /api/BO/Text/AR/internal` (lines 1051-1062). -/
def api_bo_text_ar_internal (creds : Option String) (key : String)
    (up : Upstream) : Outcome :=
  guardedRelay creds key (relayUpstreamTextAr up)

/-- Handler of `GET /api/database/refresh/internal` (lines 1064-1072): behind the
API key, returns a fixed success message; performs no file access. -/
def refresh_database_internal (creds : Option String) (key : String) :
    Outcome :=
  match require_api_key creds key with
  | .error st => .httpError st
  | .ok _ =>
    .ok (.jobj [("message", .jstr "Database refresh initiated"),
                ("status", .jstr "success")])

/-- One probe of `test_proxy` (lines 1079-1109): status is the response
status or the string "Error"; content length is `len(response.text)` on
200, the string "Failed" on other statuses, or the exception text. -/
def probeResult (up : Upstream) : JVal × JVal :=
  match up with
  | .failure msg => (.jstr "Error", .jstr msg)
  | .response st _ textLen =>
    (.jnum st, if st = 200 then .jnum textLen else .jstr "Failed")

/-- Handler of `GET /api/test-proxy` (lines 1074-1126); `ts` is
`datetime.datetime.utcnow().isoformat()`. -/
def test_proxy (u1 u2 u3 : Upstream) (ts : String) : Outcome :=
  .ok (.jobj
    [("timestamp", .jstr ts),
     ("direct_access", .jobj [("status", (probeResult u1).1),
                              ("content_length", (probeResult u1).2)]),
     ("cors_anywhere_proxy", .jobj [("status", (probeResult u2).1),
                                    ("content_length", (probeResult u2).2)]),
     ("allorigins_proxy", .jobj [("status", (probeResult u3).1),
                                 ("content_length", (probeResult u3).2)]),
     ("recommendation",
      .jstr "Check which proxy works best for your use case")])

/-- Handler of `GET /health` (lines 1129-1132); `ts` is
`datetime.datetime.now().isoformat()`. -/
def health_check (ts : String) : Outcome :=
  .ok (.jobj [("status", .jstr "healthy"), ("timestamp", .jstr ts)])

/-! ## The whole route surface, with its file-effect trace -/

/-- An operation on the cache file.  The source only ever performs
`read` (`open("data/bulletins.json", "r")` inside
`load_bulletins_from_file` is the sole file access in the repository),
but `write` and `delete` exist in the model so that "read-only" is a
provable property rather than a vacuous one. -/
inductive FileOp where
  | read
  | write (new : FileState)
  | delete

def isRead : FileOp → Bool
  | .read => true
  | _ => false

def applyOp (fs : FileState) : FileOp → FileState
  | .read => fs
  | .write new => new
  | .delete => .missing

def applyOps (fs : FileState) (ops : List FileOp) : FileState :=
  ops.foldl applyOp fs

/-- One inbound request, with the per-route arguments (query
parameters, bearer credentials, the results of the route's outbound
calls, and the timestamps the route reads from the clock). -/
inductive Request where
  | rRoot
  | rIndex
  | rDatabase
  | rLocalFR (year : Option String)
  | rLocalAR (year : Option String)
  | rFrInternal (creds : Option String) (up : Upstream)
  | rAllFrInternal (creds : Option String) (up : Upstream)
  | rArInternal (creds : Option String) (up : Upstream)
  | rAllArInternal (creds : Option String) (up : Upstream)
  | rTextFrInternal (creds : Option String) (up : Upstream)
  | rTextArInternal (creds : Option String) (up : Upstream)
  | rRefresh (creds : Option String)
  | rTestProxy (u1 u2 u3 : Upstream) (ts : String)
  | rHealth (ts : String)

/-- Dispatch of the whole application: the outcome of the request and
the trace of cache-file operations it performs.  The three routes that
call `load_bulletins_from_file` read the file once; no route performs
any other file operation. -/
def serve (req : Request) (key : String) (currentYear : Nat)
    (fs : FileState) : Outcome × List FileOp :=
  match req with
  | .rRoot => (.staticPage, [])
  | .rIndex => (.staticPage, [])
  | .rDatabase => (get_database fs, [.read])
  | .rLocalFR year => (api_bo_local_fr fs year currentYear, [.read])
  | .rLocalAR year => (api_bo_local_ar fs year currentYear, [.read])
  | .rFrInternal creds up => (api_bo_fr_internal creds key up, [])
  | .rAllFrInternal creds up => (api_bo_all_fr_internal creds key up, [])
  | .rArInternal creds up => (api_bo_ar_internal creds key up, [])
  | .rAllArInternal creds up => (api_bo_all_ar_internal creds key up, [])
  | .rTextFrInternal creds up => (api_bo_text_fr_internal creds key up, [])
  | .rTextArInternal creds up => (api_bo_text_ar_internal creds key up, [])
  | .rRefresh creds => (refresh_database_internal creds key, [])
  | .rTestProxy u1 u2 u3 ts => (test_proxy u1 u2 u3 ts, [])
  | .rHealth ts => (health_check ts, [])

/-! ## Text-scanning helpers shared by the spec-modelled components -/

/-- Value of a (most-significant-first) list of decimal digit
characters. -/
def natOfDigits (ds : List Char) : Nat :=
  ds.foldl (fun acc c => 10 * acc + (c.toNat - 48)) 0

/-- Consume the literal `pat` from the front of `txt`, returning the
remainder, or `none` when `txt` does not start with `pat`. -/
def consumeLit : List Char → List Char → Option (List Char)
  | [], rest => some rest
  | _ :: _, [] => none
  | p :: ps, c :: cs => if c = p then consumeLit ps cs else none

/-- Skip blanks (the whitespace admitted around `=` by the patterns). -/
def skipWs (cs : List Char) : List Char :=
  cs.dropWhile (fun c => c = ' ')

/-! ## IdentifierExtractor (spec-modelled)

Modelled from the spec: the `IdentifierExtractor` component
(spec section 4.3) is not present under `src/` — `src/app/main.py` only
proxies to the external scraper service that hosts it.  The model
follows the spec's words: occurrences of an assignment pattern
`<key> = <digits>` are collected by a single left-to-right scan;
`ModuleId` matches contribute the candidate context identifiers,
the first `TabId` match gives the tab identifier. -/

/-- The two supported locales (spec: primary corresponds to "fr", secondary to "ar"). -/
inductive BoLanguage where
  | primary
  | secondary

/-- The ephemeral result of one extraction (spec section 3,
`IdentifierPair`). -/
structure IdentifierPair where
  contextId : Option Nat
  tabId : Option Nat
deriving Repr, DecidableEq

namespace IdentifierExtractor

/-- Does `txt` begin with `key`, optional blanks, `=`, optional blanks,
and at least one digit?  If so, the matched number. -/
def tryMatchAt (key : List Char) (txt : List Char) : Option Nat :=
  match consumeLit key txt with
  | none => none
  | some r1 =>
    match skipWs r1 with
    | '=' :: r2 =>
      let ds := (skipWs r2).takeWhile Char.isDigit
      if ds.isEmpty then none else some (natOfDigits ds)
    | _ => none

/-- All numbers matched by the `<key> = <digits>` pattern, in document
order. -/
def scanAll (key : List Char) : List Char → List Nat
  | [] => []
  | c :: cs =>
    match tryMatchAt key (c :: cs) with
    | some n => n :: scanAll key cs
    | none => scanAll key cs

/-- The first number matched by the `<key> = <digits>` pattern. -/
def scanFirst (key : List Char) : List Char → Option Nat
  | [] => none
  | c :: cs =>
    match tryMatchAt key (c :: cs) with
    | some n => some n
    | none => scanFirst key cs

def moduleKey : List Char := "ModuleId".toList

def tabKey : List Char := "TabId".toList

/-- All collected `ModuleId` numbers of a script text. -/
def collectModuleIds (script : String) : List Nat :=
  scanAll moduleKey script.toList

/-- The first `TabId` declaration of a script text. -/
def firstTabId (script : String) : Option Nat :=
  scanFirst tabKey script.toList

/-- Modelled from the spec: `extract(scriptText, language)`
(spec section 4.3).  Context identifier: minimum collected `ModuleId`
number for the primary language, maximum for the secondary; tab
identifier: the first `TabId` declaration in document order; `none`
when the respective collection is empty. -/
def extract (script : String) (lang : BoLanguage) : IdentifierPair :=
  { contextId :=
      match lang with
      | .primary => (collectModuleIds script).min?
      | .secondary => (collectModuleIds script).max?
    tabId := firstTabId script }

end IdentifierExtractor

/-! ## DateNormalizer (spec-modelled)

Modelled from the spec: the `DateNormalizer` component
(spec section 4.1) is not present under `src/`.  The model follows the
spec's words: the first maximal run of decimal digits is read as a
millisecond epoch value; a value the host time representation cannot
express (Python's `datetime` stops at year 9999) yields `none`; the
output is an ISO-8601 UTC string with a trailing `Z`. -/

namespace DateNormalizer

/-- The first maximal run of decimal digits of the input, as a number;
`none` when the input has no digit. -/
def firstDigitRun : List Char → Option Nat
  | [] => none
  | c :: cs =>
    if c.isDigit then some (natOfDigits (c :: cs.takeWhile Char.isDigit))
    else firstDigitRun cs

def pad2 (n : Nat) : String :=
  if n < 10 then "0" ++ toString n else toString n

def pad4 (n : Nat) : String :=
  if n < 10 then "000" ++ toString n
  else if n < 100 then "00" ++ toString n
  else if n < 1000 then "0" ++ toString n
  else toString n

def pad6 (n : Nat) : String :=
  if n < 10 then "00000" ++ toString n
  else if n < 100 then "0000" ++ toString n
  else if n < 1000 then "000" ++ toString n
  else if n < 10000 then "00" ++ toString n
  else if n < 100000 then "0" ++ toString n
  else toString n

/-- Proleptic-Gregorian civil date (year, month, day) of a day count
since 1970-01-01 (Howard Hinnant's `civil_from_days`, restricted to
non-negative day counts). -/
def civilFromDays (z0 : Nat) : Nat × Nat × Nat :=
  let z := z0 + 719468
  let era := z / 146097
  let doe := z % 146097
  let yoe := (doe - doe / 1460 + doe / 36524 - doe / 146096) / 365
  let y := yoe + era * 400
  let doy := doe - (365 * yoe + yoe / 4 - yoe / 100)
  let mp := (5 * doy + 2) / 153
  let d := doy - (153 * mp + 2) / 5 + 1
  let m := if mp < 10 then mp + 3 else mp - 9
  (if m ≤ 2 then y + 1 else y, m, d)

/-- ISO-8601 UTC rendering of a millisecond epoch value, with a
trailing `Z`; a non-zero millisecond remainder is rendered as
microseconds, as Python's `isoformat` does. -/
def isoOfMs (ms : Nat) : String :=
  let secs := ms / 1000
  let msRem := ms % 1000
  let days := secs / 86400
  let rem := secs % 86400
  let hh := rem / 3600
  let mi := rem % 3600 / 60
  let ss := rem % 60
  let ymd := civilFromDays days
  pad4 ymd.1 ++ "-" ++ pad2 ymd.2.1 ++ "-" ++ pad2 ymd.2.2 ++ "T" ++
    pad2 hh ++ ":" ++ pad2 mi ++ ":" ++ pad2 ss ++
    (if msRem == 0 then "" else "." ++ pad6 (msRem * 1000)) ++ "Z"

/-- Millisecond values from this bound on are not expressible by the
host time representation (Python `datetime` ends at
9999-12-31T23:59:59.999999 UTC). -/
def maxMs : Nat := 253402300800000

/-- Modelled from the spec: `normalize(rawDateToken)`
(spec section 4.1).  The first maximal digit run is read as a
millisecond epoch value and rendered as ISO-8601 UTC with a trailing
`Z`; no digits, or a value the host time representation cannot
express, yields `none`. -/
def normalize (s : String) : Option String :=
  match firstDigitRun s.toList with
  | none => none
  | some ms => if ms < maxMs then some (isoOfMs ms) else none

end DateNormalizer

/-! ## Helper lemmas -/

theorem toList_eq_nil_iff (s : String) : s.toList = [] ↔ s = "" := by
  constructor
  · intro h
    cases s with
    | mk data =>
      have hd : data = [] := by simpa [String.toList, String.data] using h
      subst hd
      rfl
  · intro h
    subst h
    rfl

theorem verify_iff (creds : Option String) (key : String) :
    verify_api_key creds key = true ↔ creds = some key := by
  cases creds with
  | none => simp [verify_api_key]
  | some c => simp [verify_api_key]

theorem guardedRelay_401_iff (creds : Option String) (key : String)
    (body : Except PyErr JVal) :
    guardedRelay creds key body = .httpError 401 ↔ creds ≠ some key := by
  by_cases hv : verify_api_key creds key = true
  · have hc : creds = some key := (verify_iff creds key).mp hv
    subst hc
    simp only [guardedRelay, require_api_key, hv, if_pos]
    cases body with
    | ok b => simp
    | error e => simp
  · have hc : ¬ creds = some key := fun h => hv ((verify_iff creds key).mpr h)
    simp only [guardedRelay, require_api_key, if_neg hv]
    simp [hc]

theorem filter_by_year_eq (items : List JVal) (y : String) (cy : Nat) :
    filter_by_year items y cy = filterByYearCore items (yearPat y cy) := by
  by_cases h : y = "current" <;> simp [filter_by_year, yearPat, h]

/-- On a record that cannot make it raise, the filter condition
`b.get("BoDate", "").startswith(pre)` evaluates to `keepB pre b`. -/
theorem good_step (b : JVal) (pre : String) (hb : goodRecord b = true) :
    (pyGetJ b "BoDate" (.jstr "")).bind (fun v => pyStartsWithJ v pre) =
      .ok (keepB pre b) := by
  cases b with
  | jobj fields =>
    cases hl : List.lookup "BoDate" fields with
    | none => simp [pyGetJ, hl, Except.bind, pyStartsWithJ, keepB]
    | some v =>
      cases v with
      | jstr s => simp [pyGetJ, hl, Except.bind, pyStartsWithJ, keepB]
      | jnull => simp [goodRecord, hl] at hb
      | jbool b => simp [goodRecord, hl] at hb
      | jnum n => simp [goodRecord, hl] at hb
      | jarr xs => simp [goodRecord, hl] at hb
      | jobj f => simp [goodRecord, hl] at hb
  | jnull => simp [goodRecord] at hb
  | jbool b => simp [goodRecord] at hb
  | jnum n => simp [goodRecord] at hb
  | jstr s => simp [goodRecord] at hb
  | jarr xs => simp [goodRecord] at hb

/-- On a list of good records the comprehension cannot raise and
computes an ordinary filter. -/
theorem filterByYearCore_of_good :
    ∀ (items : List JVal) (pre : String),
      items.all goodRecord = true →
      filterByYearCore items pre = .ok (items.filter (keepB pre)) := by
  intro items
  induction items with
  | nil => intro pre _; rfl
  | cons b rest ih =>
    intro pre hall
    rw [List.all_cons, Bool.and_eq_true] at hall
    obtain ⟨hb, hrest⟩ := hall
    rw [filterByYearCore, good_step b pre hb]
    cases hk : keepB pre b <;>
      simp [hk, ih pre hrest, List.filter_cons, Except.map]

/-- Whenever the comprehension succeeds, its result is a subsequence of
the input (original relative order, no reordering). -/
theorem filterByYearCore_sublist :
    ∀ (items : List JVal) (pre : String) (out : List JVal),
      filterByYearCore items pre = .ok out → List.Sublist out items := by
  intro items
  induction items with
  | nil =>
    intro pre out h
    simp only [filterByYearCore] at h
    injection h with h
    subst h
    exact List.Sublist.slnil
  | cons b rest ih =>
    intro pre out h
    simp only [filterByYearCore] at h
    cases hc : (pyGetJ b "BoDate" (.jstr "")).bind (fun v => pyStartsWithJ v pre) with
    | error e => rw [hc] at h; exact absurd h (by simp)
    | ok tv =>
      rw [hc] at h
      cases tv with
      | true =>
        cases hr : filterByYearCore rest pre with
        | error e => rw [hr] at h; simp [Except.map] at h
        | ok l =>
          rw [hr] at h
          simp only [Except.map] at h
          injection h with h
          subst h
          exact List.Sublist.cons₂ b (ih pre l hr)
      | false => exact List.Sublist.cons b (ih pre out h)

/-- Full characterisation of a local-database array endpoint on a
well-formed stored list. -/
theorem local_lang_char (k : String) (fs : FileState) (y : Option String)
    (cy : Nat) (items : List JVal)
    (h1 : extractLangVal fs k = .ok (.jarr items))
    (h2 : items.all goodRecord = true) :
    api_bo_local_lang k fs y cy =
      if items.isEmpty then .httpError 404
      else
        match y with
        | none => .ok (.jarr items)
        | some ys =>
          if (items.filter (keepB (yearPat ys cy))).isEmpty then .httpError 404
          else .ok (.jarr (items.filter (keepB (yearPat ys cy)))) := by
  unfold extractLangVal at h1
  cases e1 : pyGetJ (load_bulletins_from_file fs) "bulletins" (.jobj []) with
  | error e => rw [e1] at h1; simp [Except.bind] at h1
  | ok bmap =>
    rw [e1] at h1
    simp only [Except.bind] at h1
    simp only [api_bo_local_lang, e1, h1]
    have hfalsy : pyFalsy (.jarr items) = items.isEmpty := rfl
    rw [hfalsy]
    cases hItems : items.isEmpty with
    | true => simp
    | false =>
      simp only [Bool.false_eq_true, if_false]
      cases y with
      | none => rfl
      | some ys =>
        have hiter : pyIter (.jarr items) = .ok items := rfl
        simp only [hiter, filter_by_year_eq, filterByYearCore_of_good items _ h2]

/-- A local endpoint asked without a year filter returns a non-empty
stored list as-is. -/
theorem local_lang_noyear (k : String) (fs : FileState) (cy : Nat)
    (items : List JVal)
    (h1 : extractLangVal fs k = .ok (.jarr items)) (hne : items ≠ []) :
    api_bo_local_lang k fs none cy = .ok (.jarr items) := by
  unfold extractLangVal at h1
  cases e1 : pyGetJ (load_bulletins_from_file fs) "bulletins" (.jobj []) with
  | error e => rw [e1] at h1; simp [Except.bind] at h1
  | ok bmap =>
    rw [e1] at h1
    simp only [Except.bind] at h1
    simp only [api_bo_local_lang, e1, h1]
    have hfalsy : pyFalsy (.jarr items) = items.isEmpty := rfl
    rw [hfalsy]
    have hne2 : items.isEmpty = false := by
      cases items with
      | nil => exact absurd rfl hne
      | cons a l => rfl
    simp [hne2]

/-! ## Claims -/

/-- C3: authentication for every internal endpoint is a single static
bearer-token comparison: verification succeeds exactly when bearer
credentials are present and their token equals the configured key, and
each internal endpoint answers 401 exactly when that comparison fails —
for every upstream result, i.e. before any other work matters. -/
theorem c3_static_bearer_auth (creds : Option String) (key : String)
    (up : Upstream) :
    (verify_api_key creds key = true ↔ creds = some key) ∧
    (api_bo_fr_internal creds key up = .httpError 401 ↔ creds ≠ some key) ∧
    (api_bo_all_fr_internal creds key up = .httpError 401 ↔ creds ≠ some key) ∧
    (api_bo_ar_internal creds key up = .httpError 401 ↔ creds ≠ some key) ∧
    (api_bo_all_ar_internal creds key up = .httpError 401 ↔ creds ≠ some key) ∧
    (api_bo_text_fr_internal creds key up = .httpError 401 ↔ creds ≠ some key) ∧
    (api_bo_text_ar_internal creds key up = .httpError 401 ↔ creds ≠ some key) ∧
    (refresh_database_internal creds key = .httpError 401 ↔ creds ≠ some key) := by
  refine ⟨verify_iff creds key,
    guardedRelay_401_iff creds key (relayUpstream up),
    guardedRelay_401_iff creds key (relayUpstream up),
    guardedRelay_401_iff creds key (relayUpstream up),
    guardedRelay_401_iff creds key (relayUpstream up),
    guardedRelay_401_iff creds key (relayUpstream up),
    guardedRelay_401_iff creds key (relayUpstreamTextAr up), ?_⟩
  by_cases hv : verify_api_key creds key = true
  · have hc : creds = some key := (verify_iff creds key).mp hv
    subst hc
    simp [refresh_database_internal, require_api_key, hv]
  · have hc : ¬ creds = some key := fun h => hv ((verify_iff creds key).mpr h)
    simp [refresh_database_internal, require_api_key, hv, hc]

/-- C5: every route of the service treats the cache file as read-only:
its file-operation trace consists of reads only, and replaying the
trace leaves the file state unchanged. -/
theorem c5_cache_read_only (req : Request) (key : String) (cy : Nat)
    (fs : FileState) :
    (serve req key cy fs).2.all isRead = true ∧
    applyOps fs (serve req key cy fs).2 = fs := by
  cases req <;> exact ⟨rfl, rfl⟩

/-- C6 (spec-modelled): identifier extraction selects the context
identifier among all `ModuleId` numbers with a language-keyed
tie-break — minimum for the primary language, maximum for the
secondary — and the tab identifier is the first `TabId` declaration in
document order (`scanFirst` agrees with the head of the in-order
collection); on the spec's example the results are contextId 5 / 9 and
tabId 42. -/
theorem c6_identifier_tiebreak :
    (∀ (s : String) (lang : BoLanguage),
      (IdentifierExtractor.extract s .primary).contextId =
        (IdentifierExtractor.collectModuleIds s).min? ∧
      (IdentifierExtractor.extract s .secondary).contextId =
        (IdentifierExtractor.collectModuleIds s).max? ∧
      (IdentifierExtractor.extract s lang).tabId =
        IdentifierExtractor.firstTabId s) ∧
    (∀ (pat cs : List Char),
      IdentifierExtractor.scanFirst pat cs =
        (IdentifierExtractor.scanAll pat cs).head?) ∧
    IdentifierExtractor.extract "ModuleId = 5; ModuleId = 9; var TabId = 42"
        .primary = ⟨some 5, some 42⟩ ∧
    IdentifierExtractor.extract "ModuleId = 5; ModuleId = 9; var TabId = 42"
        .secondary = ⟨some 9, some 42⟩ := by
  refine ⟨fun s lang => ⟨rfl, rfl, rfl⟩, ?_, rfl, rfl⟩
  intro pat cs
  induction cs with
  | nil => rfl
  | cons c cs ih =>
    cases h : IdentifierExtractor.tryMatchAt pat (c :: cs) with
    | some n =>
      simp [IdentifierExtractor.scanFirst, IdentifierExtractor.scanAll, h]
    | none =>
      simp [IdentifierExtractor.scanFirst, IdentifierExtractor.scanAll, h, ih]

/-- C8: loading the local cache never raises — the missing-file and
invalid-JSON states both load as the default empty structure
`{"bulletins": {"FR": [], "AR": []}}`, and in those states the local
array endpoints answer 404 for every year filter. -/
theorem c8_load_never_raises_defaults (y : Option String) (cy : Nat) :
    load_bulletins_from_file .missing = defaultDoc ∧
    load_bulletins_from_file .corrupt = defaultDoc ∧
    defaultDoc =
      .jobj [("bulletins", .jobj [("FR", .jarr []), ("AR", .jarr [])])] ∧
    api_bo_local_fr .missing y cy = .httpError 404 ∧
    api_bo_local_ar .missing y cy = .httpError 404 ∧
    api_bo_local_fr .corrupt y cy = .httpError 404 ∧
    api_bo_local_ar .corrupt y cy = .httpError 404 :=
  ⟨rfl, rfl, rfl, rfl, rfl, rfl, rfl⟩

/-- C10: `/api/database` returns the loaded cache content unchanged —
stored documents pass through as-is, the missing and corrupt states
yield the default structure rather than an error — and the route takes
no credentials and succeeds for every cache-file state. -/
theorem c10_database_passthrough (fs : FileState) :
    get_database fs = .ok (load_bulletins_from_file fs) ∧
    (∀ d : JVal, load_bulletins_from_file (.stored d) = d) ∧
    load_bulletins_from_file .missing = defaultDoc ∧
    load_bulletins_from_file .corrupt = defaultDoc ∧
    (∀ (key : String) (cy : Nat),
      (serve .rDatabase key cy fs).1 = .ok (load_bulletins_from_file fs)) :=
  ⟨rfl, fun _ => rfl, rfl, rfl, fun _ _ => rfl⟩

/-- C1 counterexample: with valid credentials and an upstream 503, the
proxy endpoint surfaces HTTP 500 ("Internal server error"), not a
"not found" signal (404) — the `HTTPException` carrying the upstream
status is swallowed by the blanket `except Exception`. -/
theorem c1_counterexample :
    api_bo_fr_internal (some "TESTAPIKEY") "TESTAPIKEY"
        (.response 503 (.ok .jnull) 0) = .httpError 500 ∧
    Outcome.httpError 500 ≠ Outcome.httpError 404 :=
  ⟨rfl, by simp⟩

/-- C1 (amended): for every authenticated request to an internal proxy
endpoint, if the outbound call fails or returns a non-success status,
the outward result is a uniform HTTP 500 internal-error signal, with no
distinction between truly-absent data and an upstream error. -/
theorem c1_upstream_error_surfaces_500 (key msg : String) (st : Nat)
    (jb : Except PyErr JVal) (tl : Nat) :
    (api_bo_fr_internal (some key) key (.failure msg) = .httpError 500 ∧
      (st ≠ 200 →
        api_bo_fr_internal (some key) key (.response st jb tl) = .httpError 500)) ∧
    (api_bo_all_fr_internal (some key) key (.failure msg) = .httpError 500 ∧
      (st ≠ 200 →
        api_bo_all_fr_internal (some key) key (.response st jb tl) = .httpError 500)) ∧
    (api_bo_ar_internal (some key) key (.failure msg) = .httpError 500 ∧
      (st ≠ 200 →
        api_bo_ar_internal (some key) key (.response st jb tl) = .httpError 500)) ∧
    (api_bo_all_ar_internal (some key) key (.failure msg) = .httpError 500 ∧
      (st ≠ 200 →
        api_bo_all_ar_internal (some key) key (.response st jb tl) = .httpError 500)) ∧
    (api_bo_text_fr_internal (some key) key (.failure msg) = .httpError 500 ∧
      (st ≠ 200 →
        api_bo_text_fr_internal (some key) key (.response st jb tl) = .httpError 500)) ∧
    (api_bo_text_ar_internal (some key) key (.failure msg) = .httpError 500 ∧
      (st ≠ 200 →
        api_bo_text_ar_internal (some key) key (.response st jb tl) = .httpError 500)) := by
  have hv : verify_api_key (some key) key = true := by simp [verify_api_key]
  have hfail :
      guardedRelay (some key) key (relayUpstream (.failure msg)) = .httpError 500 := by
    simp [guardedRelay, require_api_key, hv, relayUpstream]
  have hnon : st ≠ 200 →
      guardedRelay (some key) key (relayUpstream (.response st jb tl)) =
        .httpError 500 := by
    intro hst
    cases jb with
    | ok b => simp [guardedRelay, require_api_key, hv, relayUpstream, hst]
    | error e => simp [guardedRelay, require_api_key, hv, relayUpstream, hst]
  have hfailAr :
      guardedRelay (some key) key (relayUpstreamTextAr (.failure msg)) =
        .httpError 500 := by
    simp [guardedRelay, require_api_key, hv, relayUpstreamTextAr]
  have hnonAr : st ≠ 200 →
      guardedRelay (some key) key (relayUpstreamTextAr (.response st jb tl)) =
        .httpError 500 := by
    intro hst
    cases jb with
    | ok b => simp [guardedRelay, require_api_key, hv, relayUpstreamTextAr, hst]
    | error e => simp [guardedRelay, require_api_key, hv, relayUpstreamTextAr, hst]
  exact ⟨⟨hfail, hnon⟩, ⟨hfail, hnon⟩, ⟨hfail, hnon⟩, ⟨hfail, hnon⟩,
    ⟨hfail, hnon⟩, ⟨hfailAr, hnonAr⟩⟩

theorem c1_upstream_error_surfaces_500_witness :
    (503 : Nat) ≠ 200 ∧
    api_bo_fr_internal (some "TESTAPIKEY") "TESTAPIKEY"
        (.response 503 (.ok .jnull) 7) = .httpError 500 :=
  ⟨by decide,
    (c1_upstream_error_surfaces_500 "TESTAPIKEY" "boom" 503
      (.ok .jnull) 7).1.2 (by decide)⟩

/-- A stored cache whose French record has a numeric `BoDate`. -/
def fsBadRecord : FileState :=
  .stored (.jobj [("bulletins", .jobj
    [("FR", .jarr [.jobj [("BoDate", .jnum 5)]]), ("AR", .jarr [])])])

/-- C2 counterexample: with a year filter and a stored record whose
`BoDate` is not a string, the endpoint neither answers 404 nor returns
a list — it raises `AttributeError` (surfaced as a server error). -/
theorem c2_counterexample :
    api_bo_local_fr fsBadRecord (some "2024") 2025 = .raised .attributeError ∧
    (∀ st : Nat, Outcome.raised .attributeError ≠ Outcome.httpError st) ∧
    (∀ b : JVal, Outcome.raised .attributeError ≠ Outcome.ok b) :=
  ⟨rfl, fun _ h => Outcome.noConfusion h, fun _ h => Outcome.noConfusion h⟩

/-- C2 (amended): provided the stored value for the requested language
is an array of objects whose `BoDate` values, when present, are
strings, the local array endpoints behave as claimed: 404 when the
stored list is empty or a requested year filter leaves nothing, and the
(non-empty) matching list otherwise. -/
theorem c2_local_array_endpoints :
    (∀ (fs : FileState) (y : Option String) (cy : Nat) (items : List JVal),
      extractLangVal fs "FR" = .ok (.jarr items) →
      items.all goodRecord = true →
      api_bo_local_fr fs y cy =
        if items.isEmpty then .httpError 404
        else
          match y with
          | none => .ok (.jarr items)
          | some ys =>
            if (items.filter (keepB (yearPat ys cy))).isEmpty then .httpError 404
            else .ok (.jarr (items.filter (keepB (yearPat ys cy))))) ∧
    (∀ (fs : FileState) (y : Option String) (cy : Nat) (items : List JVal),
      extractLangVal fs "AR" = .ok (.jarr items) →
      items.all goodRecord = true →
      api_bo_local_ar fs y cy =
        if items.isEmpty then .httpError 404
        else
          match y with
          | none => .ok (.jarr items)
          | some ys =>
            if (items.filter (keepB (yearPat ys cy))).isEmpty then .httpError 404
            else .ok (.jarr (items.filter (keepB (yearPat ys cy))))) :=
  ⟨fun fs y cy items h1 h2 => local_lang_char "FR" fs y cy items h1 h2,
   fun fs y cy items h1 h2 => local_lang_char "AR" fs y cy items h1 h2⟩

/-- A well-formed stored cache used to instantiate the C2 theorem. -/
def fsGoodCache : FileState :=
  .stored (.jobj [("bulletins", .jobj
    [("FR", .jarr [.jobj [("BoDate", .jstr "2024-01-05")],
                   .jobj [("BoDate", .jstr "2023-03-01")]]),
     ("AR", .jarr [])])])

def goodItems : List JVal :=
  [.jobj [("BoDate", .jstr "2024-01-05")],
   .jobj [("BoDate", .jstr "2023-03-01")]]

theorem c2_local_array_endpoints_witness :
    extractLangVal fsGoodCache "FR" = .ok (.jarr goodItems) ∧
    goodItems.all goodRecord = true ∧
    api_bo_local_fr fsGoodCache (some "2024") 2025 =
      .ok (.jarr [.jobj [("BoDate", .jstr "2024-01-05")]]) := by
  refine ⟨rfl, rfl, ?_⟩
  have h := c2_local_array_endpoints.1 fsGoodCache (some "2024") 2025
    goodItems rfl rfl
  rw [h]
  rfl

/-- C4: records served from the local cache keep the cache's stored
order: whenever the year filter returns a list, that list is a
subsequence of the stored list (original relative order, no sorting),
and on well-formed records it is exactly the matching records; without
a year filter a non-empty stored list is returned as-is. -/
theorem c4_order_preserved :
    (∀ (items : List JVal) (y : String) (cy : Nat) (out : List JVal),
      filter_by_year items y cy = .ok out →
      List.Sublist out items ∧
      (items.all goodRecord = true →
        out = items.filter (keepB (yearPat y cy)))) ∧
    (∀ (fs : FileState) (cy : Nat) (items : List JVal),
      extractLangVal fs "FR" = .ok (.jarr items) → items ≠ [] →
      api_bo_local_fr fs none cy = .ok (.jarr items)) ∧
    (∀ (fs : FileState) (cy : Nat) (items : List JVal),
      extractLangVal fs "AR" = .ok (.jarr items) → items ≠ [] →
      api_bo_local_ar fs none cy = .ok (.jarr items)) := by
  refine ⟨?_, ?_, ?_⟩
  · intro items y cy out h
    rw [filter_by_year_eq] at h
    refine ⟨filterByYearCore_sublist items _ out h, ?_⟩
    intro hgood
    have h2 := filterByYearCore_of_good items (yearPat y cy) hgood
    have h3 := h.symm.trans h2
    exact Except.ok.inj h3
  · intro fs cy items h1 hne
    exact local_lang_noyear "FR" fs cy items h1 hne
  · intro fs cy items h1 hne
    exact local_lang_noyear "AR" fs cy items h1 hne

def w4items : List JVal :=
  [.jobj [("BoDate", .jstr "2024-02-02")], .jobj [],
   .jobj [("BoDate", .jstr "2024-11-30")]]

def w4out : List JVal :=
  [.jobj [("BoDate", .jstr "2024-02-02")],
   .jobj [("BoDate", .jstr "2024-11-30")]]

theorem c4_order_preserved_witness :
    filter_by_year w4items "2024" 2025 = .ok w4out ∧
    List.Sublist w4out w4items :=
  ⟨rfl, (c4_order_preserved.1 w4items "2024" 2025 w4out rfl).1⟩

/-- C9 counterexample: `filter_by_year` raises (`AttributeError`) on a
record whose `BoDate` value is a number, contradicting "the function
never raises". -/
theorem c9_counterexample :
    filter_by_year [.jobj [("BoDate", .jnum 7)]] "2024" 2025 =
      .error .attributeError ∧
    (∀ l : List JVal,
      (Except.error PyErr.attributeError : Except PyErr (List JVal)) ≠ .ok l) :=
  ⟨rfl, fun _ h => Except.noConfusion h⟩

/-- C9 (amended): on records whose `BoDate` values, when present, are
strings, `filter_by_year` returns exactly the records whose `BoDate`
begins with the requested prefix, in original order; a record lacking
`BoDate` is excluded for every non-empty prefix and kept for the empty
one; the prefix is the current UTC year for "current" and the year
string itself otherwise.  For a record with a non-string `BoDate` the
function raises instead of never raising. -/
theorem c9_filter_by_year_semantics :
    (∀ (items : List JVal) (y : String) (cy : Nat),
      items.all goodRecord = true →
      filter_by_year items y cy =
        .ok (items.filter (keepB (yearPat y cy)))) ∧
    (∀ (fields : List (String × JVal)) (s pre : String),
      List.lookup "BoDate" fields = some (.jstr s) →
      keepB pre (.jobj fields) = pyStartsWith s pre) ∧
    (∀ (fields : List (String × JVal)) (pre : String),
      List.lookup "BoDate" fields = none → pre ≠ "" →
      keepB pre (.jobj fields) = false) ∧
    (∀ v : JVal, goodRecord v = true → keepB "" v = true) ∧
    (∀ cy : Nat, yearPat "current" cy = toString cy) ∧
    (∀ (y : String) (cy : Nat), y ≠ "current" → yearPat y cy = y) := by
  refine ⟨?_, ?_, ?_, ?_, fun _ => rfl, ?_⟩
  · intro items y cy hgood
    rw [filter_by_year_eq]
    exact filterByYearCore_of_good items _ hgood
  · intro fields s pre hl
    simp [keepB, hl]
  · intro fields pre hl hpre
    have hk : keepB pre (.jobj fields) = pyStartsWith "" pre := by
      simp [keepB, hl]
    rw [hk]
    unfold pyStartsWith
    cases hp : pre.toList with
    | nil => exact absurd ((toList_eq_nil_iff pre).mp hp) hpre
    | cons c cs => rfl
  · intro v hv
    cases v with
    | jobj fields =>
      cases hl : List.lookup "BoDate" fields with
      | none => simp [keepB, hl, pyStartsWith, List.isPrefixOf]
      | some w =>
        cases w with
        | jstr s => simp [keepB, hl, pyStartsWith, List.isPrefixOf]
        | jnull => simp [goodRecord, hl] at hv
        | jbool b => simp [goodRecord, hl] at hv
        | jnum n => simp [goodRecord, hl] at hv
        | jarr xs => simp [goodRecord, hl] at hv
        | jobj f => simp [goodRecord, hl] at hv
    | jnull => simp [goodRecord] at hv
    | jbool b => simp [goodRecord] at hv
    | jnum n => simp [goodRecord] at hv
    | jstr s => simp [goodRecord] at hv
    | jarr xs => simp [goodRecord] at hv
  · intro y cy h
    simp [yearPat, h]

theorem c9_filter_by_year_semantics_witness :
    ([.jobj [("BoDate", .jstr "2024-06-01")], .jobj []] :
        List JVal).all goodRecord = true ∧
    filter_by_year [.jobj [("BoDate", .jstr "2024-06-01")], .jobj []]
        "2024" 2025 =
      .ok ([.jobj [("BoDate", .jstr "2024-06-01")], .jobj []].filter
        (keepB (yearPat "2024" 2025))) :=
  ⟨rfl,
    c9_filter_by_year_semantics.1
      [.jobj [("BoDate", .jstr "2024-06-01")], .jobj []] "2024" 2025 rfl⟩

/-- Every rendered timestamp literally ends with `Z`. -/
theorem isoOfMs_split (ms : Nat) :
    ∃ t : String, DateNormalizer.isoOfMs ms = t ++ "Z" :=
  ⟨_, rfl⟩

/-- C7 (spec-modelled): date normalization reads the first maximal
decimal digit run of the input as a millisecond epoch value and renders
a UTC ISO-8601 string ending in `Z`; an input with no digits, or a
value the host time representation cannot express, yields `none` rather
than an error.  On the spec's examples: the vendor token
`/Date(1687392000000)/` renders as `2023-06-22T00:00:00Z` and
`no digits here` yields `none`. -/
theorem c7_date_normalization :
    (∀ s : String, DateNormalizer.firstDigitRun s.toList = none →
      DateNormalizer.normalize s = none) ∧
    (∀ (s : String) (ms : Nat),
      DateNormalizer.firstDigitRun s.toList = some ms →
      DateNormalizer.maxMs ≤ ms → DateNormalizer.normalize s = none) ∧
    (∀ (s : String) (ms : Nat),
      DateNormalizer.firstDigitRun s.toList = some ms →
      ms < DateNormalizer.maxMs →
      DateNormalizer.normalize s = some (DateNormalizer.isoOfMs ms) ∧
      ∃ t : String, DateNormalizer.normalize s = some (t ++ "Z")) ∧
    DateNormalizer.normalize "/Date(1687392000000)/" =
      some "2023-06-22T00:00:00Z" ∧
    DateNormalizer.normalize "no digits here" = none := by
  refine ⟨?_, ?_, ?_, rfl, rfl⟩
  · intro s h
    simp only [String.toList] at h
    simp [DateNormalizer.normalize, h]
  · intro s ms h hge
    simp only [String.toList] at h
    have hlt : ¬ ms < DateNormalizer.maxMs := by omega
    simp [DateNormalizer.normalize, h, hlt]
  · intro s ms h hlt
    simp only [String.toList] at h
    have hn : DateNormalizer.normalize s = some (DateNormalizer.isoOfMs ms) := by
      simp [DateNormalizer.normalize, h, hlt]
    obtain ⟨t, ht⟩ := isoOfMs_split ms
    exact ⟨hn, t, by rw [hn, ht]⟩

theorem c7_date_normalization_witness :
    DateNormalizer.normalize "/Date(1687392000000)/" =
      some (DateNormalizer.isoOfMs 1687392000000) ∧
    ∃ t : String,
      DateNormalizer.normalize "/Date(1687392000000)/" = some (t ++ "Z") :=
  c7_date_normalization.2.2.1 "/Date(1687392000000)/" 1687392000000
    rfl (by decide)
